import Mathlib

/-!
# swim-rag: ingestion and query handlers

A shallow embedding of the HTTP handlers of the repository

* `src/backend/internal/server/service.go` (`RAGService.DonatePlanHandler`,
  `RAGService.QueryHandler`),
* `src/rag/rag-server.go` (`RAGServer.Query`, `RAGServer.ScrapeHandler`).

Handlers are pure functions from the decoded request and an environment of
collaborators (model client, vector store, database, scraper) to the response
written, the trace of collaborator calls, and the resulting store and ledger
contents.  Collaborators that live outside the embedded files are fields of an
environment structure, so every theorem quantifies over all their behaviours.
-/

namespace SwimRag

/-! ## Shared data model -/

/-- Modelled from the spec: the cell of a table row; the declaration of
`models.Row` is outside the embedded sources.  Section 3 of the specification:
a row is an "ordered sequence of numeric/text cells plus a Sum field". -/
inductive Cell where
  | num (n : Int)
  | text (s : String)
  deriving DecidableEq, Repr

/-- Modelled from the spec: `models.Row`, an ordered sequence of cells and a
`Sum` field. -/
structure Row where
  Cells : List Cell
  Sum : Int
  deriving DecidableEq, Repr

/-- The type `models.Table`: a Go slice of rows (the handlers take `len` of it
and index it). -/
abbrev Table := List Row

/-- What a handler wrote to its `http.ResponseWriter`. -/
inductive Response (A : Type) where
  /-- The call `http.Error(w, msg, code)`. -/
  | error (code : Nat) (msg : String)
  /-- The calls `w.WriteHeader(code); w.Write(body)`. -/
  | text (code : Nat) (body : String)
  /-- The call `WriteResponseJSON(w, code, payload)`. -/
  | json (code : Nat) (payload : A)
  deriving DecidableEq, Repr

/-- The status code of a response. -/
def Response.status {A : Type} : Response A → Nat
  | .error code _ => code
  | .text code _ => code
  | .json code _ => code

def StatusOK : Nat := 200
def StatusBadRequest : Nat := 400
def StatusInternalServerError : Nat := 500

/-! ## `RAGService.DonatePlanHandler` (service.go, lines 62-130) -/

/-- The request body `models.DonatePlanRequest`; the handler reads the four
fields `UserID`, `Title`, `Description`, `Table`. -/
structure DonatePlanRequest where
  UserID : String
  Title : String
  Description : String
  Table : Table
  deriving DecidableEq, Repr

/-- The value `models.Description`; the handler uses the fields `Title`,
`Text` and `Meta`.  `Meta` is a pointer, `none` is Go's `nil`. -/
structure Description (M : Type) where
  Title : String
  Text : String
  Meta : Option M
  deriving DecidableEq, Repr

/-- The zero value `&models.Description{}` of line 81. -/
def Description.zero {M : Type} : Description M :=
  { Title := "", Text := "", Meta := none }

/-- The value `models.Plan` built on line 100. -/
structure Plan where
  Title : String
  Description : String
  Table : Table
  deriving DecidableEq, Repr

/-- The value `models.DonatedPlan` built on lines 110-117. -/
structure DonatedPlan where
  UserID : String
  PlanID : String
  CreatedAt : String
  Title : String
  Description : String
  Table : Table
  deriving DecidableEq, Repr

/-- Collaborators of `RAGService.DonatePlanHandler`.  An error is its message
(`err.Error()`); `none` in `AddDonatedPlan` is a `nil` error. -/
structure DonateEnv (M : Type) where
  /-- The method `rs.db.Client.DescribeTable(ctx, &dpr.Table)`. -/
  DescribeTable : Table → Except String (Description M)
  /-- The method `rs.db.Client.GenerateMetadata(ctx, &models.Plan{...})`. -/
  GenerateMetadata : Plan → Except String M
  /-- The value of `uuid.NewString()`. -/
  NewString : String
  /-- The value of `time.Now().Format(time.DateTime)`. -/
  Now : String
  /-- The method `rs.db.AddDonatedPlan(ctx, plan, desc.Meta)`. -/
  AddDonatedPlan : DonatedPlan → Option M → Option String

/-- The `switch` of lines 91-97, run on the description returned by
`DescribeTable`.  The first case ends in `fallthrough`, which in Go runs the
body of the next case without testing its condition. -/
def titleSwitch {M : Type} (dpr : DonatePlanRequest) (desc : Description M) :
    Description M :=
  if dpr.Title ≠ "" then
    -- case dpr.Title != "": desc.Title = dpr.Title; fallthrough
    let desc := { desc with Title := dpr.Title }
    { desc with Text := dpr.Description }
  else if dpr.Description ≠ "" then
    -- case dpr.Description != "": desc.Text = dpr.Description
    { desc with Text := dpr.Description }
  else
    desc

/-- Outcome of `RAGService.DonatePlanHandler`: the response and, when the handler got as
far as line 120, the two arguments it gave to `AddDonatedPlan`. -/
structure DonateResult (M : Type) where
  response : Response Unit
  stored : Option (DonatedPlan × Option M)

/-- Lines 81-107: the value of the function-level variable `desc` after the
`if`/`else`, or the message of the error that ends the handler with 500.

Line 81 declares `desc` in the function scope.  Line 85,
`desc, err := rs.db.Client.DescribeTable(...)`, is a short variable
declaration inside the block of the `if`: neither name is declared in that
block, so it declares a new `desc` (and `err`) whose scope is the block.  The
`switch` writes to that inner variable, which ends with the block; the outer
`desc` still holds the zero value.  The `else` block declares only `m` and
`err`, so `desc.Meta = m` on line 106 writes to the outer variable. -/
def describe {M : Type} (env : DonateEnv M) (dpr : DonatePlanRequest) :
    Except String (Description M) :=
  let desc : Description M := Description.zero
  if dpr.Description = "" ∨ dpr.Title = "" then
    match env.DescribeTable dpr.Table with
    | .error e => .error e
    | .ok inner =>
      let _inner := titleSwitch dpr inner
      .ok desc
  else
    match env.GenerateMetadata
        { Title := dpr.Title, Description := dpr.Description, Table := dpr.Table } with
    | .error e => .error e
    | .ok m => .ok { desc with Meta := some m }

/-- The handler `RAGService.DonatePlanHandler`.  The argument is the result of
`models.GetRequestJSON(req, dpr)`: the decoded body or the decoding error. -/
def RAGService.DonatePlanHandler {M : Type} (env : DonateEnv M)
    (body : Except String DonatePlanRequest) : DonateResult M :=
  match body with
  | .error e => { response := .error StatusBadRequest e, stored := none }
  | .ok dpr =>
    if dpr.Table.length = 0 then
      { response := .error StatusBadRequest "Table is empty", stored := none }
    else
      match describe env dpr with
      | .error e => { response := .error StatusInternalServerError e, stored := none }
      | .ok desc =>
        let plan : DonatedPlan :=
          { UserID := dpr.UserID
            PlanID := env.NewString
            CreatedAt := env.Now
            Title := desc.Title
            Description := desc.Text
            Table := dpr.Table }
        match env.AddDonatedPlan plan desc.Meta with
        | some e =>
          { response := .error StatusInternalServerError e
            stored := some (plan, desc.Meta) }
        | none =>
          { response := .text StatusOK "Scraping completed successfully"
            stored := some (plan, desc.Meta) }

/-! ## `RAGService.QueryHandler` (service.go, lines 134-162) -/

/-- Go's `map[string]string`, as an association list. -/
abbrev Filter := List (String × String)

/-- The request body `models.QueryRequest`; the handler reads `Content`,
`Filter` and `Method`. -/
structure QueryRequest where
  Content : String
  Filter : Filter
  Method : String
  deriving DecidableEq, Repr

/-- The value returned by `rs.db.Query`.  Its declaration is outside the
embedded sources; the handler touches only the field `Table`, the remaining
fields are carried as an uninterpreted payload. -/
structure Answer where
  Payload : String
  Table : Table
  deriving DecidableEq, Repr

/-- The function `strings.HasPrefix(s, p)`.  Go compares bytes; on UTF-8 text
a string starts with the bytes of `p` exactly when it starts with its
characters. -/
def strings.HasPrefix (s p : String) : Bool :=
  p.data.isPrefixOf s.data

/-- Go's index expression `s[i]` for an `int` index: `none` is the run-time
panic "index out of range". -/
def index? {α : Type} (s : List α) (i : Int) : Option α :=
  if 0 ≤ i ∧ i < (s.length : Int) then s[i.toNat]? else none

/-- How a handler invocation ends: it wrote a response, or it panicked on an
index expression before writing one. -/
inductive Outcome (A : Type) where
  | wrote (r : Response A)
  /-- The panic `index out of range [index] with length len`. -/
  | panic (index : Int) (len : Nat)
  deriving DecidableEq, Repr

/-- Collaborator calls made by `RAGService.QueryHandler`, in program order. -/
inductive QueryCall where
  /-- The call `rs.db.Query(ctx, content, filter, method)`. -/
  | Query (content : String) (filter : Filter) (method : String)
  /-- The call `answer.Table.UpdateSum()`, with the table it was applied to. -/
  | UpdateSum (table : Table)
  deriving DecidableEq, Repr

/-- Outcome and call trace of `RAGService.QueryHandler`. -/
structure QueryResult where
  outcome : Outcome Answer
  calls : List QueryCall
  deriving DecidableEq, Repr

/-- The handler `RAGService.QueryHandler`.  `Query` is `rs.db.Query` and
`UpdateSum` is `models.Table.UpdateSum`, both declared outside the embedded
sources; `body` is the result of `models.GetRequestJSON(req, qr)`.  The
arguments of `logger.Debug` on line 158 are evaluated before the call, so the
index expression runs whatever the log level. -/
def RAGService.QueryHandler (Query : String → Filter → String → Except String Answer)
    (UpdateSum : Table → Table) (body : Except String QueryRequest) : QueryResult :=
  match body with
  | .error e => { outcome := .wrote (.error StatusBadRequest e), calls := [] }
  | .ok qr =>
    let call := QueryCall.Query qr.Content qr.Filter qr.Method
    match Query qr.Content qr.Filter qr.Method with
    | .error e =>
      if strings.HasPrefix e "unsupported method:" then
        { outcome := .wrote (.error StatusBadRequest
            "Method may only be 'choose' or 'generate', invalid choice.")
          calls := [call] }
      else
        { outcome := .wrote (.error StatusInternalServerError e), calls := [call] }
    | .ok answer =>
      -- answer.Table.UpdateSum()
      let updated : Answer := { answer with Table := UpdateSum answer.Table }
      let calls := [call, QueryCall.UpdateSum answer.Table]
      -- answer.Table[len(answer.Table)-1].Sum
      let last : Int := (updated.Table.length : Int) - 1
      match index? updated.Table last with
      | none => { outcome := .panic last updated.Table.length, calls := calls }
      | some _row => { outcome := .wrote (.json StatusOK updated), calls := calls }

/-- The numeric value of a cell; a text cell adds nothing to a sum. -/
def Cell.value : Cell → Int
  | .num n => n
  | .text _ => 0

/-- The arithmetic sum of the numeric cells of a row. -/
def Row.cellSum (r : Row) : Int :=
  (r.Cells.map Cell.value).sum

/-- Modelled from the spec: the method `models.Table.UpdateSum`, which is
outside the embedded sources.  Section 4.6: "recompute every row's Sum from
its own cell values"; the sum a row arrived with is not read. -/
def Table.UpdateSum (t : Table) : Table :=
  t.map fun r => { r with Sum := r.cellSum }

/-- Modelled from the spec: the aggregate of section 4.6, "then recompute the
aggregate/final sum from the per-row sums".  The specification names no field
that holds it; it is the sum of the `Sum` fields of the rows. -/
def Table.aggregate (t : Table) : Int :=
  (t.map Row.Sum).sum

/-- Modelled from the spec: the method `RAGDB.Query` called on line 146, which
is outside the embedded sources.  Section 4.5: the router "validates the mode;
any other value fails with an InvalidArgument condition before any model or
store call is made".  The message starts with the text the handler looks for on
line 148.  `run` is the rest of the method (search, prompt, model call,
parsing), reached only with an accepted mode. -/
def RAGDB.Query (run : String → Filter → String → Except String Answer)
    (content : String) (filter : Filter) (method : String) : Except String Answer :=
  if method = "choose" ∨ method = "generate" then
    run content filter method
  else
    .error ("unsupported method: " ++ method)

/-! ## `RAGServer.Query` (rag-server.go, lines 211-249) -/

/-- Go's `map[string]any`, as an association list with one entry per key. -/
abbrev GoMap (V : Type) := List (String × V)

/-- The value `schema.Document`: page content and metadata. -/
structure Document (V : Type) where
  PageContent : String
  Metadata : GoMap V
  deriving DecidableEq, Repr

/-- The local type `queryRequest` of lines 214-217. -/
structure queryRequest where
  Content : String
  Filter : Filter
  deriving DecidableEq, Repr

/-- Collaborator calls made by `RAGServer.Query`, in program order. -/
inductive RagCall where
  /-- The call `rs.store.SimilaritySearch(ctx, query, k, WithFilters(filter))`. -/
  | SimilaritySearch (query : String) (k : Nat) (filter : Filter)
  /-- The call `llms.GenerateFromSinglePrompt(ctx, rs.modelClient, prompt)`. -/
  | GenerateFromSinglePrompt (prompt : String)
  deriving DecidableEq, Repr

/-- Collaborators of `RAGServer.Query`. -/
structure RagEnv (V : Type) where
  SimilaritySearch : String → Nat → Filter → Except String (List (Document V))
  GenerateFromSinglePrompt : String → Except String String
  /-- The function `fmt.Sprintf(ragTemplateStr, a, b)`; the constant
  `ragTemplateStr` is declared outside the embedded sources. -/
  ragTemplate : String → String → String

/-- Lines 231-234: collect the page contents in the order of `docs`. -/
def docsContents {V : Type} (docs : List (Document V)) : List String :=
  docs.foldl (fun acc doc => acc ++ [doc.PageContent]) []

/-- Line 239: the prompt; `strings.Join(xs, "\n")` is `String.intercalate`. -/
def ragQuery {V : Type} (env : RagEnv V) (content : String)
    (docs : List (Document V)) : String :=
  env.ragTemplate content (String.intercalate "\n" (docsContents docs))

/-- Response and call trace of `RAGServer.Query`. -/
structure RagResult where
  response : Response String
  calls : List RagCall
  deriving DecidableEq, Repr

/-- The handler `RAGServer.Query`; `body` is the result of
`GetRequestJSON(req, qr)`. -/
def RAGServer.Query {V : Type} (env : RagEnv V) (body : Except String queryRequest) : RagResult :=
  match body with
  | .error e => { response := .error StatusBadRequest e, calls := [] }
  | .ok qr =>
    let search := RagCall.SimilaritySearch qr.Content 10 qr.Filter
    match env.SimilaritySearch qr.Content 10 qr.Filter with
    | .error e =>
      { response := .error StatusInternalServerError ("similarity search: " ++ e)
        calls := [search] }
    | .ok docs =>
      let query := ragQuery env qr.Content docs
      let calls := [search, RagCall.GenerateFromSinglePrompt query]
      match env.GenerateFromSinglePrompt query with
      | .error e => { response := .error StatusInternalServerError e, calls := calls }
      | .ok answer => { response := .json StatusOK answer, calls := calls }

/-! ## `RAGServer.ScrapeHandler` (rag-server.go, lines 257-356) -/

/-- The assignment `m[k] = v` on a Go map: the entry of an existing key is
replaced, a new key is added. -/
def GoMap.set {V : Type} : GoMap V → String → V → GoMap V
  | [], k, v => [(k, v)]
  | (k', v') :: rest, k, v =>
    if k' = k then (k, v) :: rest else (k', v') :: GoMap.set rest k v

/-- The function `maps.Copy(dst, src)`: every entry of `src` is assigned into
`dst`. -/
def maps.Copy {V : Type} (dst src : GoMap V) : GoMap V :=
  src.foldl (fun d kv => GoMap.set d kv.1 kv.2) dst

/-- The element type of `plans.Range()`: the handler reads `kvp.URL` and
`kvp.Plan`. -/
structure KVP where
  URL : String
  Plan : Plan
  deriving DecidableEq, Repr

/-- One statement queued on a `pgx.Batch` by `batch.Queue(sql, args...)`. -/
structure QueuedQuery where
  SQL : String
  Arguments : List String
  deriving DecidableEq, Repr

/-- Contents of the vector store and of the `urls` table. -/
structure Db (V : Type) where
  store : List (Document V)
  urls : List String
  deriving DecidableEq, Repr

/-- Collaborators of `RAGServer.ScrapeHandler`.  `M` is the type `Metadata`, `V` the value
type of the metadata maps; both are declared outside the embedded sources.  An
error is its message, `none` is a `nil` error. -/
structure ScrapeEnv (M V : Type) where
  /-- The error of `pgx.Connect` on line 267. -/
  Connect : Option String
  /-- The error of `conn.Query(ctx, "SELECT url FROM urls")`. -/
  QueryErr : Option String
  /-- The error of `rows.Scan(&url)` on the row with the given index. -/
  ScanErr : Nat → Option String
  /-- The function `Scrape(alreadyVisited, url)`; the list is what
  `plans.Range()` yields, each time it is ranged over. -/
  Scrape : List String → String → Except String (List KVP)
  /-- The function `MetadataSchema()`. -/
  MetadataSchema : Except String String
  /-- The function `fmt.Sprintf(scrapeTemplateStr, a, b, c, d)`; the constant
  `scrapeTemplateStr` is declared outside the embedded sources. -/
  scrapeTemplate : String → String → String → String → String
  /-- The method `Table.String()`. -/
  TableString : Table → String
  /-- The call `llms.GenerateFromSinglePrompt(ctx, rs.modelClient, query,
  llms.WithResponseMIMEType("application/json"))`: the answer and the error. -/
  GenerateFromSinglePrompt : String → String × Option String
  /-- The method `Plan.Map()`. -/
  PlanMap : Plan → GoMap V
  /-- The method `Plan.String()`. -/
  PlanString : Plan → String
  /-- The call `json.Unmarshal([]byte(answer), &metadata)` on a fresh
  `metadata`: the error and the value left in `metadata`. -/
  Unmarshal : String → Option String × M
  /-- The function `StructToMap(metadata)`. -/
  StructToMap : M → GoMap V
  /-- The method `rs.store.AddDocuments(ctx, documents)`: the new identifiers
  or the error. -/
  AddDocuments : List (Document V) → Except String (List String)
  /-- The error of `pgx.Connect` on line 334. -/
  Connect2 : Option String
  /-- The error of `br.Close()` for the batch sent on line 345. -/
  BatchClose : List QueuedQuery → Option String

/-- Collaborator calls made by `RAGServer.ScrapeHandler` that the claims speak about, in
program order. -/
inductive ScrapeCall (V : Type) where
  | Scrape (alreadyVisited : List String) (url : String)
  | GenerateFromSinglePrompt (query : String)
  | AddDocuments (documents : List (Document V))
  | SendBatch (batch : List QueuedQuery)
  deriving DecidableEq, Repr

/-- Lines 280-287: scan the rows of `SELECT url FROM urls` into
`alreadyVisited`; the first failing `rows.Scan` ends the handler. -/
def scanRows (ScanErr : Nat → Option String) :
    List String → Nat → List String → Except String (List String)
  | [], _, alreadyVisited => .ok alreadyVisited
  | url :: rows, i, alreadyVisited =>
    match ScanErr i with
    | some e => .error e
    | none => scanRows ScanErr rows (i + 1) (alreadyVisited ++ [url])

/-- Line 309: the prompt for one plan. -/
def scrapeQuery {M V : Type} (env : ScrapeEnv M V) (ms : String) (plan : Plan) : String :=
  env.scrapeTemplate plan.Title plan.Description (env.TableString plan.Table) ms

/-- Lines 306-323: the body of the first loop, for one pair.  The error of the
model call is overwritten on line 314 without being read. -/
def toDocument {M V : Type} (env : ScrapeEnv M V) (ms : String) (kvp : KVP) : Document V :=
  let plan := kvp.Plan
  let query := scrapeQuery env ms plan
  let answer := (env.GenerateFromSinglePrompt query).1
  let planMap := env.PlanMap plan
  let unmarshalled := env.Unmarshal answer
  let err := unmarshalled.1
  let metadata := unmarshalled.2
  let planMap := if err = none then maps.Copy planMap (env.StructToMap metadata) else planMap
  { PageContent := env.PlanString kvp.Plan, Metadata := planMap }

/-- Lines 303-324: the loop that appends one document per ranged pair. -/
def buildDocuments {M V : Type} (env : ScrapeEnv M V) (ms : String)
    (plans : List KVP) : List (Document V) :=
  plans.foldl (fun documents kvp => documents ++ [toDocument env ms kvp]) []

/-- The model calls of the first loop, one per ranged pair. -/
def generateCalls {M V : Type} (env : ScrapeEnv M V) (ms : String)
    (plans : List KVP) : List (ScrapeCall V) :=
  plans.foldl
    (fun calls kvp => calls ++ [ScrapeCall.GenerateFromSinglePrompt (scrapeQuery env ms kvp.Plan)])
    []

/-- Lines 341-344: the loop that queues one statement per ranged pair. -/
def buildBatch (plans : List KVP) : List QueuedQuery :=
  plans.foldl
    (fun batch kvp => batch ++ [{ SQL := "INSERT INTO urls (url) VALUES ($1)",
                                  Arguments := [kvp.URL] }])
    []

/-- The rows a batch that was closed without error has added to `urls`: one per
queued statement, its bound arguments. -/
def insertedURLs (batch : List QueuedQuery) : List String :=
  batch.flatMap fun q => q.Arguments

/-- The text `fmt.Sprintf("%v", ids)` for a slice of strings. -/
def formatIds (ids : List String) : String :=
  "[" ++ String.intercalate " " ids ++ "]"

/-- Response, call trace and resulting data of `RAGServer.ScrapeHandler`. -/
structure ScrapeResult (V : Type) where
  response : Response Unit
  calls : List (ScrapeCall V)
  db : Db V

/-- The handler `RAGServer.ScrapeHandler`.  `url` is
`rq.URL.Query().Get("url")`, `db` the contents of the vector store and of the
`urls` table when the request arrives.  A successful `AddDocuments` appends the
documents to the store; a batch closed without error appends its URLs to
`urls`, a failed one leaves `urls` as it was. -/
def RAGServer.ScrapeHandler {M V : Type} (env : ScrapeEnv M V) (db : Db V) (url : String) :
    ScrapeResult V :=
  if url = "" then
    { response := .error StatusBadRequest "Missing url parameter", calls := [], db := db }
  else
    match env.Connect with
    | some e =>
      { response := .error StatusInternalServerError ("Failed to connect to database: " ++ e)
        calls := [], db := db }
    | none =>
    match env.QueryErr with
    | some e =>
      { response := .error StatusInternalServerError ("Failed to query database: " ++ e)
        calls := [], db := db }
    | none =>
    match scanRows env.ScanErr db.urls 0 [] with
    | .error e =>
      { response := .error StatusInternalServerError ("Failed to scan database row: " ++ e)
        calls := [], db := db }
    | .ok alreadyVisited =>
    let calls := [ScrapeCall.Scrape alreadyVisited url]
    match env.Scrape alreadyVisited url with
    | .error e =>
      { response := .error StatusInternalServerError ("Failed to scrape URL: " ++ e)
        calls := calls, db := db }
    | .ok plans =>
    match env.MetadataSchema with
    | .error e =>
      { response := .error StatusInternalServerError ("Failed to get metadata schema: " ++ e)
        calls := calls, db := db }
    | .ok ms =>
    let documents := buildDocuments env ms plans
    let calls := calls ++ generateCalls env ms plans ++ [ScrapeCall.AddDocuments documents]
    match env.AddDocuments documents with
    | .error e =>
      { response := .error StatusInternalServerError e, calls := calls, db := db }
    | .ok ids =>
    let db := { db with store := db.store ++ documents }
    match env.Connect2 with
    | some e =>
      { response := .error StatusInternalServerError ("Failed to connect to database: " ++ e)
        calls := calls, db := db }
    | none =>
    let batch := buildBatch plans
    let calls := calls ++ [ScrapeCall.SendBatch batch]
    match env.BatchClose batch with
    | some e =>
      { response := .error StatusInternalServerError
          ("Failed to insert urls into database: " ++ e)
        calls := calls, db := db }
    | none =>
      { response := .text StatusOK ("\x7b\"status\":\"success\",\"ids\":" ++ formatIds ids ++ "\x7d")
        calls := calls
        db := { db with urls := db.urls ++ insertedURLs batch } }

/-! ## Observations on results and traces -/

/-- The status written, when the handler wrote a response. -/
def Outcome.status? {A : Type} : Outcome A → Option Nat
  | .wrote r => some r.status
  | .panic _ _ => none

/-- The `SendBatch` calls of a trace, by their batches. -/
def sendBatchCalls {V : Type} (calls : List (ScrapeCall V)) : List (List QueuedQuery) :=
  calls.filterMap fun c =>
    match c with
    | .SendBatch batch => some batch
    | _ => none

/-- The conditions under which `RAGServer.ScrapeHandler` gets as far as its first loop
with the pairs `plans` and the schema `ms`: a seed was given, the database
answered, every row of `urls` scanned, the scraper and `MetadataSchema`
returned without error. -/
def ReachesLoop {M V : Type} (env : ScrapeEnv M V) (db : Db V) (url : String)
    (plans : List KVP) (ms : String) : Prop :=
  url ≠ "" ∧ env.Connect = none ∧ env.QueryErr = none
    ∧ (∀ i, i < db.urls.length → env.ScanErr i = none)
    ∧ env.Scrape db.urls url = .ok plans ∧ env.MetadataSchema = .ok ms

/-- The answer of the model does not decode into `Metadata`: `json.Unmarshal`
returns a non-nil error on it. -/
def Unparsed {M V : Type} (env : ScrapeEnv M V) (ms : String) (kvp : KVP) : Prop :=
  (env.Unmarshal (env.GenerateFromSinglePrompt (scrapeQuery env ms kvp.Plan)).1).1 ≠ none

/-! ## Concrete inputs used to run the handlers -/

/-- A one-row table. -/
def sampleTable : Table := [{ Cells := [.num 4, .num 100, .text "easy"], Sum := 7 }]

/-- A model client that describes every table the same way, and a database that
stores every plan. -/
def sampleDonateEnv : DonateEnv String where
  DescribeTable := fun _ => .ok { Title := "Generated title", Text := "Generated text", Meta := none }
  GenerateMetadata := fun _ => .ok "meta"
  NewString := "plan-1"
  Now := "2025-01-01 00:00:00"
  AddDonatedPlan := fun _ _ => none

/-- A donation that supplies both a title and a description. -/
def fullDonation : DonatePlanRequest :=
  { UserID := "u1", Title := "My plan", Description := "My description", Table := sampleTable }

/-- A donation that supplies neither a title nor a description. -/
def bareDonation : DonatePlanRequest :=
  { UserID := "u1", Title := "", Description := "", Table := sampleTable }

/-- Two scraped plans. -/
def planA : Plan := { Title := "A", Description := "first", Table := sampleTable }

def planB : Plan := { Title := "", Description := "second", Table := [] }

/-- A scraper that finds two pages behind every seed and skips the visited
ones; a model that answers JSON for titled plans only and fails on the others;
a store and a database that accept everything. -/
def sampleScrapeEnv : ScrapeEnv String String where
  Connect := none
  QueryErr := none
  ScanErr := fun _ => none
  Scrape := fun alreadyVisited url =>
    .ok (([{ URL := url ++ "/a", Plan := planA }, { URL := url ++ "/b", Plan := planB }] : List KVP).filter
      fun kvp => !alreadyVisited.contains kvp.URL)
  MetadataSchema := .ok "schema"
  scrapeTemplate := fun title description table ms =>
    title ++ "|" ++ description ++ "|" ++ table ++ "|" ++ ms
  TableString := fun _ => "table"
  GenerateFromSinglePrompt := fun query =>
    if strings.HasPrefix query "|" then ("", some "model unavailable") else ("beginner", none)
  PlanMap := fun plan => [("title", plan.Title), ("description", plan.Description)]
  PlanString := fun plan => plan.Title ++ "\n" ++ plan.Description
  Unmarshal := fun answer =>
    if answer = "" then (some "unexpected end of JSON input", "") else (none, answer)
  StructToMap := fun metadata => [("category", metadata), ("title", "T")]
  AddDocuments := fun documents => .ok (documents.map fun d => d.PageContent)
  Connect2 := none
  BatchClose := fun _ => none

/-- The same collaborators with a store that rejects the upsert. -/
def upsertFailsEnv : ScrapeEnv String String :=
  { sampleScrapeEnv with AddDocuments := fun _ => .error "embedding failed" }

/-- The same collaborators with a database that rejects the batch. -/
def batchFailsEnv : ScrapeEnv String String :=
  { sampleScrapeEnv with BatchClose := fun _ => some "duplicate key" }

/-- The documents built from the two pages behind the seed `s`: the first
enriched, the second as scraped. -/
def sampleDocuments : List (Document String) :=
  [{ PageContent := "A\nfirst"
     Metadata := [("title", "T"), ("description", "first"), ("category", "beginner")] },
   { PageContent := "\nsecond"
     Metadata := [("title", ""), ("description", "second")] }]

/-- An empty store and ledger. -/
def emptyDb : Db String := { store := [], urls := [] }

/-- A ledger that already holds both pages behind the seed `s`. -/
def visitedDb : Db String := { store := [], urls := ["s/a", "s/b"] }


/-- A table as a model may return it: the sums do not match the cells. -/
def modelTable : Table :=
  [{ Cells := [.num 4, .num 100, .text "easy"], Sum := 7 },
   { Cells := [.num 2, .num 50], Sum := 0 }]

/-- The rest of `RAGDB.Query` for the examples: fails without content, returns
an empty table for the content "nothing", and `modelTable` otherwise. -/
def sampleRun : String → Filter → String → Except String Answer :=
  fun content _ method =>
    if content = "" then .error "model unavailable"
    else if content = "nothing" then .ok { Payload := method, Table := [] }
    else .ok { Payload := method, Table := modelTable }

def chooseRequest : QueryRequest :=
  { Content := "beginner plan", Filter := [], Method := "choose" }

def deleteRequest : QueryRequest :=
  { Content := "beginner plan", Filter := [], Method := "delete" }

def emptyContentRequest : QueryRequest :=
  { Content := "", Filter := [], Method := "generate" }

def nothingRequest : QueryRequest :=
  { Content := "nothing", Filter := [], Method := "choose" }

/-- A store that returns three documents, best match first, and fails on an
empty query; a model that echoes its prompt. -/
def sampleRagEnv : RagEnv String where
  SimilaritySearch := fun query k _ =>
    if query = "" then .error "no embedding"
    else .ok (([{ PageContent := "plan one", Metadata := [] },
                { PageContent := "plan two", Metadata := [("level", "easy")] },
                { PageContent := "plan three", Metadata := [] }] : List (Document String)).take k)
  GenerateFromSinglePrompt := fun prompt => .ok ("answer to " ++ prompt)
  ragTemplate := fun query context => "Q: " ++ query ++ " Context: " ++ context

/-- The same store with a model that fails on every prompt. -/
def modelFailsRagEnv : RagEnv String :=
  { sampleRagEnv with GenerateFromSinglePrompt := fun _ => .error "quota exceeded" }

/-! ## Theorems: `RAGService.DonatePlanHandler` -/

/-- Whatever the request and the collaborators, the plan handed to
`AddDonatedPlan` has an empty title and an empty description: the outer `desc`
of line 81 never receives either. -/
theorem DonatePlanHandler_stored_title_empty {M : Type} (env : DonateEnv M)
    (body : Except String DonatePlanRequest) (plan : DonatedPlan) (m : Option M)
    (h : (RAGService.DonatePlanHandler env body).stored = some (plan, m)) :
    plan.Title = "" ∧ plan.Description = "" := by
  unfold RAGService.DonatePlanHandler at h
  split at h
  · simp at h
  · rename_i dpr
    split at h
    · simp at h
    · split at h
      · simp at h
      · rename_i desc hdesc
        have hd : desc.Title = "" ∧ desc.Text = "" := by
          unfold describe at hdesc
          split at hdesc
          · split at hdesc
            · simp at hdesc
            · simp only [Except.ok.injEq] at hdesc
              subst hdesc
              exact ⟨rfl, rfl⟩
          · split at hdesc
            · simp at hdesc
            · simp only [Except.ok.injEq] at hdesc
              subst hdesc
              exact ⟨rfl, rfl⟩
        simp only at h
        split at h <;>
        · simp only [Option.some.injEq, Prod.mk.injEq] at h
          obtain ⟨hp, -⟩ := h
          subst hp
          exact hd

/-- C1 (failing input).  A donation with title "My plan" and description
"My description" and a non-empty table is stored successfully (status 200), and
the plan passed to `AddDonatedPlan` carries the request's user and table but an
empty title and an empty description instead of the request's; a donation
without title and description is stored with an empty title and description
instead of the ones `DescribeTable` produced. -/
theorem DonatePlanHandler_drops_title_and_description :
    (RAGService.DonatePlanHandler sampleDonateEnv (.ok fullDonation)).response
        = .text StatusOK "Scraping completed successfully"
      ∧ (RAGService.DonatePlanHandler sampleDonateEnv (.ok fullDonation)).stored
        = some ({ UserID := "u1", PlanID := "plan-1", CreatedAt := "2025-01-01 00:00:00",
                  Title := "", Description := "", Table := sampleTable }, some "meta")
      ∧ fullDonation.Title = "My plan" ∧ fullDonation.Description = "My description"
      ∧ (RAGService.DonatePlanHandler sampleDonateEnv (.ok bareDonation)).response
        = .text StatusOK "Scraping completed successfully"
      ∧ (RAGService.DonatePlanHandler sampleDonateEnv (.ok bareDonation)).stored
        = some ({ UserID := "u1", PlanID := "plan-1", CreatedAt := "2025-01-01 00:00:00",
                  Title := "", Description := "", Table := sampleTable }, none)
      ∧ sampleDonateEnv.DescribeTable bareDonation.Table
        = .ok { Title := "Generated title", Text := "Generated text", Meta := none } := by
  refine ⟨by decide, by decide, rfl, rfl, by decide, by decide, rfl⟩

/-! ## Lemmas: the loops of `RAGServer.ScrapeHandler` and `Query` -/

/-- A loop that appends one element per iteration builds the mapped list. -/
theorem foldl_append_singleton {α β : Type} (f : α → β) (l : List α) (init : List β) :
    l.foldl (fun acc x => acc ++ [f x]) init = init ++ l.map f := by
  induction l generalizing init with
  | nil => simp
  | cons x xs ih => simp [ih]

theorem buildDocuments_eq_map {M V : Type} (env : ScrapeEnv M V) (ms : String)
    (plans : List KVP) :
    buildDocuments env ms plans = plans.map (toDocument env ms) := by
  unfold buildDocuments
  rw [foldl_append_singleton (toDocument env ms) plans []]
  rfl

theorem generateCalls_eq_map {M V : Type} (env : ScrapeEnv M V) (ms : String)
    (plans : List KVP) :
    generateCalls env ms plans
      = plans.map fun kvp => ScrapeCall.GenerateFromSinglePrompt (scrapeQuery env ms kvp.Plan) := by
  unfold generateCalls
  rw [foldl_append_singleton
    (fun kvp => (ScrapeCall.GenerateFromSinglePrompt (scrapeQuery env ms kvp.Plan) : ScrapeCall V))
    plans []]
  rfl

theorem buildBatch_eq_map (plans : List KVP) :
    buildBatch plans
      = plans.map fun kvp =>
          ({ SQL := "INSERT INTO urls (url) VALUES ($1)", Arguments := [kvp.URL] } : QueuedQuery) := by
  unfold buildBatch
  rw [foldl_append_singleton
    (fun kvp => ({ SQL := "INSERT INTO urls (url) VALUES ($1)", Arguments := [kvp.URL] } : QueuedQuery))
    plans []]
  rfl

theorem insertedURLs_buildBatch (plans : List KVP) :
    insertedURLs (buildBatch plans) = plans.map KVP.URL := by
  rw [buildBatch_eq_map]
  unfold insertedURLs
  induction plans with
  | nil => rfl
  | cons kvp rest ih => simpa using ih

theorem docsContents_eq_map {V : Type} (docs : List (Document V)) :
    docsContents docs = docs.map Document.PageContent := by
  unfold docsContents
  rw [foldl_append_singleton Document.PageContent docs []]
  rfl

/-- A scan that succeeds has read every row, in order. -/
theorem scanRows_ok (ScanErr : Nat → Option String) (rows : List String) (i : Nat)
    (acc visited : List String) (h : scanRows ScanErr rows i acc = .ok visited) :
    visited = acc ++ rows := by
  induction rows generalizing i acc with
  | nil =>
    simp only [scanRows, Except.ok.injEq] at h
    simp [h]
  | cons url rest ih =>
    unfold scanRows at h
    split at h
    · simp at h
    · have := ih _ _ h
      simpa using this

/-- No model call of the first loop is an `AddDocuments` call. -/
theorem addDocuments_not_mem_generateCalls {M V : Type} (env : ScrapeEnv M V) (ms : String)
    (plans : List KVP) (docs : List (Document V)) :
    ScrapeCall.AddDocuments docs ∉ generateCalls env ms plans := by
  rw [generateCalls_eq_map]
  simp

/-- No model call of the first loop is a `SendBatch` call. -/
theorem sendBatch_not_mem_generateCalls {M V : Type} (env : ScrapeEnv M V) (ms : String)
    (plans : List KVP) (batch : List QueuedQuery) :
    ScrapeCall.SendBatch batch ∉ generateCalls env ms plans := by
  rw [generateCalls_eq_map]
  simp

/-- Every `AddDocuments` call of the handler carries the documents built from
the pairs the scraper returned for the contents of `urls`. -/
theorem ScrapeHandler_addDocuments_mem {M V : Type} (env : ScrapeEnv M V) (db : Db V)
    (url : String) (docs : List (Document V))
    (h : ScrapeCall.AddDocuments docs ∈ (RAGServer.ScrapeHandler env db url).calls) :
    ∃ plans ms, env.Scrape db.urls url = .ok plans ∧ env.MetadataSchema = .ok ms
      ∧ docs = plans.map (toDocument env ms) := by
  have hg := addDocuments_not_mem_generateCalls env
  unfold RAGServer.ScrapeHandler at h
  split at h
  · simp at h
  split at h
  · simp at h
  split at h
  · simp at h
  split at h
  · simp at h
  rename_i visited hscan
  have hv : visited = db.urls := by simpa using scanRows_ok _ _ _ _ _ hscan
  subst hv
  split at h
  · simp at h
  rename_i plans hplans
  split at h
  · simp at h
  rename_i ms hms
  refine ⟨plans, ms, hplans, hms, ?_⟩
  rw [← buildDocuments_eq_map]
  rcases hadd : env.AddDocuments (buildDocuments env ms plans) with e | ids <;>
    rcases hc2 : env.Connect2 with _ | e2 <;>
    rcases hb : env.BatchClose (buildBatch plans) with _ | e3 <;>
    simpa [hadd, hc2, hb, hg] using h

/-- Every `SendBatch` call of the handler comes after a successful
`AddDocuments` and carries one INSERT per pair the scraper returned. -/
theorem ScrapeHandler_sendBatch_mem {M V : Type} (env : ScrapeEnv M V) (db : Db V)
    (url : String) (batch : List QueuedQuery)
    (h : ScrapeCall.SendBatch batch ∈ (RAGServer.ScrapeHandler env db url).calls) :
    ∃ plans ms ids, env.Scrape db.urls url = .ok plans ∧ env.MetadataSchema = .ok ms
      ∧ env.AddDocuments (buildDocuments env ms plans) = .ok ids
      ∧ batch = buildBatch plans := by
  have hg := sendBatch_not_mem_generateCalls env
  unfold RAGServer.ScrapeHandler at h
  split at h
  · simp at h
  split at h
  · simp at h
  split at h
  · simp at h
  split at h
  · simp at h
  rename_i visited hscan
  have hv : visited = db.urls := by simpa using scanRows_ok _ _ _ _ _ hscan
  subst hv
  split at h
  · simp at h
  rename_i plans hplans
  split at h
  · simp at h
  rename_i ms hms
  rcases hadd : env.AddDocuments (buildDocuments env ms plans) with e | ids
  · simp [hadd, hg] at h
  refine ⟨plans, ms, ids, hplans, hms, hadd, ?_⟩
  rcases hc2 : env.Connect2 with _ | e2 <;>
    rcases hb : env.BatchClose (buildBatch plans) with _ | e3 <;>
    simp [hadd, hc2, hb, hg] at h <;> exact h

/-! ## Theorems: `RAGServer.ScrapeHandler` -/

/-- A scan on which no row fails reads every row, in order. -/
theorem scanRows_of_no_error (ScanErr : Nat → Option String) (rows : List String) (i : Nat)
    (acc : List String) (h : ∀ j, j < rows.length → ScanErr (i + j) = none) :
    scanRows ScanErr rows i acc = .ok (acc ++ rows) := by
  induction rows generalizing i acc with
  | nil => simp [scanRows]
  | cons url rest ih =>
    have h0 : ScanErr i = none := by simpa using h 0 (by simp)
    have hrest : ∀ j, j < rest.length → ScanErr (i + 1 + j) = none := by
      intro j hj
      have := h (j + 1) (by simpa using hj)
      simpa [Nat.add_assoc, Nat.add_comm 1 j] using this
    simp [scanRows, h0, ih (i + 1) (acc ++ [url]) hrest]

theorem sendBatchCalls_generateCalls {M V : Type} (env : ScrapeEnv M V) (ms : String)
    (plans : List KVP) : sendBatchCalls (generateCalls env ms plans) = [] := by
  rw [generateCalls_eq_map]
  unfold sendBatchCalls
  induction plans with
  | nil => rfl
  | cons kvp rest ih => simp [ih]

theorem sendBatchCalls_append {V : Type} (a b : List (ScrapeCall V)) :
    sendBatchCalls (a ++ b) = sendBatchCalls a ++ sendBatchCalls b := by
  simp [sendBatchCalls]

/-- The handler on a request that reaches the first loop: what remains is the
upsert, the second connection and the batch. -/
theorem ScrapeHandler_of_reachesLoop {M V : Type} (env : ScrapeEnv M V) (db : Db V)
    (url : String) (plans : List KVP) (ms : String) (h : ReachesLoop env db url plans ms) :
    RAGServer.ScrapeHandler env db url =
      (let documents := buildDocuments env ms plans
       let calls := [ScrapeCall.Scrape db.urls url] ++ generateCalls env ms plans
          ++ [ScrapeCall.AddDocuments documents]
       match env.AddDocuments documents with
       | .error e =>
         { response := .error StatusInternalServerError e, calls := calls, db := db }
       | .ok ids =>
         match env.Connect2 with
         | some e =>
           { response := .error StatusInternalServerError ("Failed to connect to database: " ++ e)
             calls := calls, db := { db with store := db.store ++ documents } }
         | none =>
           match env.BatchClose (buildBatch plans) with
           | some e =>
             { response := .error StatusInternalServerError
                 ("Failed to insert urls into database: " ++ e)
               calls := calls ++ [ScrapeCall.SendBatch (buildBatch plans)]
               db := { db with store := db.store ++ documents } }
           | none =>
             { response := .text StatusOK
                 ("\x7b\"status\":\"success\",\"ids\":" ++ formatIds ids ++ "\x7d")
               calls := calls ++ [ScrapeCall.SendBatch (buildBatch plans)]
               db := { store := db.store ++ documents
                       urls := db.urls ++ insertedURLs (buildBatch plans) } }) := by
  obtain ⟨hurl, hc, hq, hs, hp, hm⟩ := h
  have hscan : scanRows env.ScanErr db.urls 0 [] = .ok db.urls := by
    have := scanRows_of_no_error env.ScanErr db.urls 0 [] (by simpa using hs)
    simpa using this
  unfold RAGServer.ScrapeHandler
  simp only [hurl, hc, hq, hscan, hp, hm, if_false]

/-- When `json.Unmarshal` returns an error, the document's metadata is the value
of `plan.Map()`. -/
theorem toDocument_metadata_of_unparsed {M V : Type} (env : ScrapeEnv M V) (ms : String)
    (kvp : KVP) (h : Unparsed env ms kvp) :
    (toDocument env ms kvp).Metadata = env.PlanMap kvp.Plan := by
  unfold Unparsed at h
  unfold toDocument
  simp only [ne_eq] at h
  simp [h]

/-- C2.  Every document list `RAGServer.ScrapeHandler` hands to `AddDocuments` pairs up,
in order, with the scraped (URL, Plan) pairs, and for every pair whose model
answer `json.Unmarshal` rejects, the document's metadata mapping is exactly the
value of `plan.Map()`: nothing is merged into it. -/
theorem ScrapeHandler_unparsed_answer_keeps_plan_map {M V : Type} (env : ScrapeEnv M V)
    (db : Db V) (url : String) (docs : List (Document V))
    (h : ScrapeCall.AddDocuments docs ∈ (RAGServer.ScrapeHandler env db url).calls) :
    ∃ plans ms, env.Scrape db.urls url = .ok plans ∧ env.MetadataSchema = .ok ms
      ∧ List.Forall₂
          (fun kvp doc => Unparsed env ms kvp → doc.Metadata = env.PlanMap kvp.Plan)
          plans docs := by
  obtain ⟨plans, ms, hplans, hms, hdocs⟩ := ScrapeHandler_addDocuments_mem env db url docs h
  refine ⟨plans, ms, hplans, hms, ?_⟩
  subst hdocs
  rw [List.forall₂_map_right_iff, List.forall₂_same]
  intro kvp _ hun
  exact toDocument_metadata_of_unparsed env ms kvp hun

/-- C2 at a concrete crawl: the model call for the second plan fails, its answer
is empty and does not decode, and the second document keeps the two entries of
`plan.Map()`. -/
theorem ScrapeHandler_unparsed_answer_keeps_plan_map_witness :
    ScrapeCall.AddDocuments sampleDocuments ∈ (RAGServer.ScrapeHandler sampleScrapeEnv emptyDb "s").calls
      ∧ Unparsed sampleScrapeEnv "schema" { URL := "s/b", Plan := planB }
      ∧ ∃ plans ms, sampleScrapeEnv.Scrape emptyDb.urls "s" = .ok plans
          ∧ sampleScrapeEnv.MetadataSchema = .ok ms
          ∧ List.Forall₂
              (fun kvp doc =>
                Unparsed sampleScrapeEnv ms kvp → doc.Metadata = sampleScrapeEnv.PlanMap kvp.Plan)
              plans sampleDocuments :=
  ⟨by decide, by unfold Unparsed; decide,
    ScrapeHandler_unparsed_answer_keeps_plan_map sampleScrapeEnv emptyDb "s" sampleDocuments
      (by decide)⟩

/-- A request answered with 200 went through every step: the scraper, the
schema, the upsert, the second connection and the batch all succeeded. -/
theorem ScrapeHandler_ok_inv {M V : Type} (env : ScrapeEnv M V) (db : Db V) (url : String)
    (h : (RAGServer.ScrapeHandler env db url).response.status = StatusOK) :
    ∃ plans ms ids, env.Scrape db.urls url = .ok plans ∧ env.MetadataSchema = .ok ms
      ∧ env.AddDocuments (buildDocuments env ms plans) = .ok ids
      ∧ env.BatchClose (buildBatch plans) = none
      ∧ (RAGServer.ScrapeHandler env db url).calls
          = [ScrapeCall.Scrape db.urls url] ++ generateCalls env ms plans
              ++ [ScrapeCall.AddDocuments (buildDocuments env ms plans)]
              ++ [ScrapeCall.SendBatch (buildBatch plans)]
      ∧ (RAGServer.ScrapeHandler env db url).db
          = { store := db.store ++ buildDocuments env ms plans
              urls := db.urls ++ insertedURLs (buildBatch plans) } := by
  by_cases hurl : url = ""
  · simp [RAGServer.ScrapeHandler, hurl, Response.status, StatusOK, StatusBadRequest] at h
  rcases hc : env.Connect with _ | e
  swap
  · simp [RAGServer.ScrapeHandler, hurl, hc, Response.status, StatusOK, StatusInternalServerError] at h
  rcases hq : env.QueryErr with _ | e
  swap
  · simp [RAGServer.ScrapeHandler, hurl, hc, hq, Response.status, StatusOK, StatusInternalServerError] at h
  rcases hscan : scanRows env.ScanErr db.urls 0 [] with e | visited
  · simp [RAGServer.ScrapeHandler, hurl, hc, hq, hscan, Response.status, StatusOK,
      StatusInternalServerError] at h
  have hv : visited = db.urls := by simpa using scanRows_ok _ _ _ _ _ hscan
  subst hv
  rcases hp : env.Scrape db.urls url with e | plans
  · simp [RAGServer.ScrapeHandler, hurl, hc, hq, hscan, hp, Response.status, StatusOK,
      StatusInternalServerError] at h
  rcases hm : env.MetadataSchema with e | ms
  · simp [RAGServer.ScrapeHandler, hurl, hc, hq, hscan, hp, hm, Response.status, StatusOK,
      StatusInternalServerError] at h
  rcases hadd : env.AddDocuments (buildDocuments env ms plans) with e | ids
  · simp [RAGServer.ScrapeHandler, hurl, hc, hq, hscan, hp, hm, hadd, Response.status, StatusOK,
      StatusInternalServerError] at h
  rcases hc2 : env.Connect2 with _ | e
  swap
  · simp [RAGServer.ScrapeHandler, hurl, hc, hq, hscan, hp, hm, hadd, hc2, Response.status, StatusOK,
      StatusInternalServerError] at h
  rcases hb : env.BatchClose (buildBatch plans) with _ | e
  swap
  · simp [RAGServer.ScrapeHandler, hurl, hc, hq, hscan, hp, hm, hadd, hc2, hb, Response.status, StatusOK,
      StatusInternalServerError] at h
  refine ⟨plans, ms, ids, rfl, rfl, hadd, hb, ?_, ?_⟩ <;>
    simp [RAGServer.ScrapeHandler, hurl, hc, hq, hscan, hp, hm, hadd, hc2, hb]

/-- What a request leaves in the store and the ledger: nothing new, or the
documents of the scraped pairs and possibly their URLs. -/
theorem ScrapeHandler_db {M V : Type} (env : ScrapeEnv M V) (db : Db V) (url : String) :
    (RAGServer.ScrapeHandler env db url).db = db
      ∨ ∃ plans ms, env.Scrape db.urls url = .ok plans ∧ env.MetadataSchema = .ok ms
          ∧ (RAGServer.ScrapeHandler env db url).db.store = db.store ++ buildDocuments env ms plans
          ∧ ((RAGServer.ScrapeHandler env db url).db.urls = db.urls
              ∨ (RAGServer.ScrapeHandler env db url).db.urls = db.urls ++ insertedURLs (buildBatch plans)) := by
  by_cases hurl : url = ""
  · simp [RAGServer.ScrapeHandler, hurl]
  rcases hc : env.Connect with _ | e
  swap
  · simp [RAGServer.ScrapeHandler, hurl, hc]
  rcases hq : env.QueryErr with _ | e
  swap
  · simp [RAGServer.ScrapeHandler, hurl, hc, hq]
  rcases hscan : scanRows env.ScanErr db.urls 0 [] with e | visited
  · simp [RAGServer.ScrapeHandler, hurl, hc, hq, hscan]
  have hv : visited = db.urls := by simpa using scanRows_ok _ _ _ _ _ hscan
  subst hv
  rcases hp : env.Scrape db.urls url with e | plans
  · simp [RAGServer.ScrapeHandler, hurl, hc, hq, hscan, hp]
  rcases hm : env.MetadataSchema with e | ms
  · simp [RAGServer.ScrapeHandler, hurl, hc, hq, hscan, hp, hm]
  rcases hadd : env.AddDocuments (buildDocuments env ms plans) with e | ids
  · simp [RAGServer.ScrapeHandler, hurl, hc, hq, hscan, hp, hm, hadd]
  right
  refine ⟨plans, ms, rfl, rfl, ?_⟩
  rcases hc2 : env.Connect2 with _ | e
  swap
  · simp [RAGServer.ScrapeHandler, hurl, hc, hq, hscan, hp, hm, hadd, hc2]
  rcases hb : env.BatchClose (buildBatch plans) with _ | e <;>
    simp [RAGServer.ScrapeHandler, hurl, hc, hq, hscan, hp, hm, hadd, hc2, hb]

/-- C6.  When `RAGServer.ScrapeHandler` answers 200, the handler sent exactly one batch
to the `urls` table, that batch queues one INSERT per pair the scraper emitted,
in order, each carrying that pair's URL and nothing else, and the ledger
afterwards is the old ledger followed by exactly the emitted URLs, so it
contains every one of them. -/
theorem ScrapeHandler_ledger_has_emitted_urls {M V : Type} (env : ScrapeEnv M V) (db : Db V)
    (url : String) (h : (RAGServer.ScrapeHandler env db url).response.status = StatusOK) :
    ∃ plans, env.Scrape db.urls url = .ok plans
      ∧ sendBatchCalls (RAGServer.ScrapeHandler env db url).calls
          = [plans.map fun kvp =>
              { SQL := "INSERT INTO urls (url) VALUES ($1)", Arguments := [kvp.URL] }]
      ∧ (RAGServer.ScrapeHandler env db url).db.urls = db.urls ++ plans.map KVP.URL
      ∧ ∀ kvp ∈ plans, kvp.URL ∈ (RAGServer.ScrapeHandler env db url).db.urls := by
  obtain ⟨plans, ms, ids, hp, -, -, -, hcalls, hdb⟩ := ScrapeHandler_ok_inv env db url h
  have hurls : (RAGServer.ScrapeHandler env db url).db.urls = db.urls ++ plans.map KVP.URL := by
    rw [hdb, insertedURLs_buildBatch]
  refine ⟨plans, hp, ?_, hurls, ?_⟩
  · rw [hcalls, sendBatchCalls_append, sendBatchCalls_append, sendBatchCalls_append,
      sendBatchCalls_generateCalls, buildBatch_eq_map]
    rfl
  · intro kvp hk
    rw [hurls]
    exact List.mem_append_right _ (List.mem_map_of_mem KVP.URL hk)

/-- C6 at a concrete crawl of two pages against an empty ledger. -/
theorem ScrapeHandler_ledger_has_emitted_urls_witness :
    (RAGServer.ScrapeHandler sampleScrapeEnv emptyDb "s").response.status = StatusOK
      ∧ (RAGServer.ScrapeHandler sampleScrapeEnv emptyDb "s").db.urls = ["s/a", "s/b"]
      ∧ ∃ plans, sampleScrapeEnv.Scrape emptyDb.urls "s" = .ok plans
          ∧ sendBatchCalls (RAGServer.ScrapeHandler sampleScrapeEnv emptyDb "s").calls
              = [plans.map fun kvp =>
                  { SQL := "INSERT INTO urls (url) VALUES ($1)", Arguments := [kvp.URL] }]
          ∧ (RAGServer.ScrapeHandler sampleScrapeEnv emptyDb "s").db.urls = emptyDb.urls ++ plans.map KVP.URL
          ∧ ∀ kvp ∈ plans, kvp.URL ∈ (RAGServer.ScrapeHandler sampleScrapeEnv emptyDb "s").db.urls :=
  ⟨by decide, by decide,
    ScrapeHandler_ledger_has_emitted_urls sampleScrapeEnv emptyDb "s" (by decide)⟩

/-- C7.  When the scraper emits no pair for the seed, every document list the
handler gives to `AddDocuments` is empty, every batch it sends has no queued
statement, and the store and the ledger end as they started. -/
theorem ScrapeHandler_empty_crawl {M V : Type} (env : ScrapeEnv M V) (db : Db V)
    (url : String) (h : env.Scrape db.urls url = .ok []) :
    (∀ docs, ScrapeCall.AddDocuments docs ∈ (RAGServer.ScrapeHandler env db url).calls → docs = [])
      ∧ (∀ batch, ScrapeCall.SendBatch batch ∈ (RAGServer.ScrapeHandler env db url).calls → batch = [])
      ∧ (RAGServer.ScrapeHandler env db url).db = db := by
  refine ⟨?_, ?_, ?_⟩
  · intro docs hd
    obtain ⟨plans, ms, hp, -, hdocs⟩ := ScrapeHandler_addDocuments_mem env db url docs hd
    rw [h] at hp
    cases hp
    simpa using hdocs
  · intro batch hb
    obtain ⟨plans, ms, ids, hp, -, -, hbatch⟩ := ScrapeHandler_sendBatch_mem env db url batch hb
    rw [h] at hp
    cases hp
    simpa [buildBatch] using hbatch
  · rcases ScrapeHandler_db env db url with hdb | ⟨plans, ms, hp, -, hstore, hurls⟩
    · exact hdb
    · rw [h] at hp
      cases hp
      have hstore2 : (RAGServer.ScrapeHandler env db url).db.store = db.store := by
        simpa [buildDocuments] using hstore
      have hurls2 : (RAGServer.ScrapeHandler env db url).db.urls = db.urls := by
        rcases hurls with hu | hu
        · exact hu
        · simpa [buildBatch, insertedURLs] using hu
      cases hres : (RAGServer.ScrapeHandler env db url).db with
      | mk store urls =>
        rw [hres] at hstore2 hurls2
        simp only at hstore2 hurls2
        subst hstore2 hurls2
        rfl

/-- C7 at a concrete crawl: both pages behind the seed are already in the
ledger; the handler still calls the store and the database, with an empty
document list and an empty batch. -/
theorem ScrapeHandler_empty_crawl_witness :
    sampleScrapeEnv.Scrape visitedDb.urls "s" = .ok []
      ∧ (RAGServer.ScrapeHandler sampleScrapeEnv visitedDb "s").calls
          = [.Scrape ["s/a", "s/b"] "s", .AddDocuments [], .SendBatch []]
      ∧ (∀ docs, ScrapeCall.AddDocuments docs ∈ (RAGServer.ScrapeHandler sampleScrapeEnv visitedDb "s").calls
          → docs = [])
      ∧ (∀ batch, ScrapeCall.SendBatch batch ∈ (RAGServer.ScrapeHandler sampleScrapeEnv visitedDb "s").calls
          → batch = [])
      ∧ (RAGServer.ScrapeHandler sampleScrapeEnv visitedDb "s").db = visitedDb :=
  ⟨rfl, by decide, ScrapeHandler_empty_crawl sampleScrapeEnv visitedDb "s" rfl⟩

/-- A trace with a `SendBatch` call ends with a successful `AddDocuments`
followed by that `SendBatch`. -/
theorem ScrapeHandler_sendBatch_order {M V : Type} (env : ScrapeEnv M V) (db : Db V)
    (url : String) (batch : List QueuedQuery)
    (h : ScrapeCall.SendBatch batch ∈ (RAGServer.ScrapeHandler env db url).calls) :
    ∃ plans ms ids, env.AddDocuments (buildDocuments env ms plans) = .ok ids
      ∧ (RAGServer.ScrapeHandler env db url).calls
          = [ScrapeCall.Scrape db.urls url] ++ generateCalls env ms plans
              ++ [ScrapeCall.AddDocuments (buildDocuments env ms plans), ScrapeCall.SendBatch batch] := by
  have hg := sendBatch_not_mem_generateCalls env
  by_cases hurl : url = ""
  · simp [RAGServer.ScrapeHandler, hurl] at h
  rcases hc : env.Connect with _ | e
  swap
  · simp [RAGServer.ScrapeHandler, hurl, hc] at h
  rcases hq : env.QueryErr with _ | e
  swap
  · simp [RAGServer.ScrapeHandler, hurl, hc, hq] at h
  rcases hscan : scanRows env.ScanErr db.urls 0 [] with e | visited
  · simp [RAGServer.ScrapeHandler, hurl, hc, hq, hscan] at h
  have hv : visited = db.urls := by simpa using scanRows_ok _ _ _ _ _ hscan
  subst hv
  rcases hp : env.Scrape db.urls url with e | plans
  · simp [RAGServer.ScrapeHandler, hurl, hc, hq, hscan, hp] at h
  rcases hm : env.MetadataSchema with e | ms
  · simp [RAGServer.ScrapeHandler, hurl, hc, hq, hscan, hp, hm] at h
  rcases hadd : env.AddDocuments (buildDocuments env ms plans) with e | ids
  · simp [RAGServer.ScrapeHandler, hurl, hc, hq, hscan, hp, hm, hadd, hg] at h
  rcases hc2 : env.Connect2 with _ | e
  swap
  · simp [RAGServer.ScrapeHandler, hurl, hc, hq, hscan, hp, hm, hadd, hc2, hg] at h
  refine ⟨plans, ms, ids, hadd, ?_⟩
  rcases hb : env.BatchClose (buildBatch plans) with _ | e <;>
  · simp only [RAGServer.ScrapeHandler, hurl, hc, hq, hscan, hp, hm, hadd, hc2, hb, if_false] at h ⊢
    simp [hg] at h
    simp [h]

/-- C8.  Every batch sent to the `urls` table comes right after an
`AddDocuments` call that succeeded.  When the upsert fails the handler answers
500 with the store's error, sends no batch and leaves the ledger as it was.
When the upsert succeeds and closing the batch fails, the handler answers 500
with the cause in the message, the store holds the upserted documents (nothing
removes them) and the ledger is as it was. -/
theorem ScrapeHandler_ledger_after_upsert {M V : Type} (env : ScrapeEnv M V) (db : Db V)
    (url : String) :
    (∀ batch, ScrapeCall.SendBatch batch ∈ (RAGServer.ScrapeHandler env db url).calls →
        ∃ docs ids pre, env.AddDocuments docs = .ok ids
          ∧ (RAGServer.ScrapeHandler env db url).calls
              = pre ++ [ScrapeCall.AddDocuments docs, ScrapeCall.SendBatch batch])
      ∧ (∀ plans ms e, ReachesLoop env db url plans ms →
          env.AddDocuments (buildDocuments env ms plans) = .error e →
            (RAGServer.ScrapeHandler env db url).response = .error StatusInternalServerError e
              ∧ sendBatchCalls (RAGServer.ScrapeHandler env db url).calls = []
              ∧ (RAGServer.ScrapeHandler env db url).db.urls = db.urls)
      ∧ (∀ plans ms ids e, ReachesLoop env db url plans ms →
          env.AddDocuments (buildDocuments env ms plans) = .ok ids →
          env.Connect2 = none → env.BatchClose (buildBatch plans) = some e →
            (RAGServer.ScrapeHandler env db url).response
                = .error StatusInternalServerError ("Failed to insert urls into database: " ++ e)
              ∧ (RAGServer.ScrapeHandler env db url).db.store = db.store ++ buildDocuments env ms plans
              ∧ (RAGServer.ScrapeHandler env db url).db.urls = db.urls) := by
  refine ⟨?_, ?_, ?_⟩
  · intro batch hb
    obtain ⟨plans, ms, ids, hadd, hcalls⟩ := ScrapeHandler_sendBatch_order env db url batch hb
    exact ⟨_, ids, _, hadd, hcalls⟩
  · intro plans ms e hr hadd
    rw [ScrapeHandler_of_reachesLoop env db url plans ms hr]
    have hcons : ∀ (c : ScrapeCall V) (cs : List (ScrapeCall V)),
        sendBatchCalls (c :: cs) = sendBatchCalls [c] ++ sendBatchCalls cs :=
      fun c cs => sendBatchCalls_append [c] cs
    simp only [hadd, List.singleton_append, List.cons_append, List.nil_append, and_true,
      true_and]
    rw [hcons, sendBatchCalls_append, sendBatchCalls_generateCalls]
    rfl
  · intro plans ms ids e hr hadd hc2 hb
    rw [ScrapeHandler_of_reachesLoop env db url plans ms hr]
    simp only [hadd, hc2, hb, and_self]

/-- C8 at concrete crawls: one against a store that rejects the upsert, one
against a database that rejects the batch. -/
theorem ScrapeHandler_ledger_after_upsert_witness :
    (ReachesLoop upsertFailsEnv emptyDb "s"
        [{ URL := "s/a", Plan := planA }, { URL := "s/b", Plan := planB }] "schema"
      ∧ (RAGServer.ScrapeHandler upsertFailsEnv emptyDb "s").response
          = .error StatusInternalServerError "embedding failed"
      ∧ sendBatchCalls (RAGServer.ScrapeHandler upsertFailsEnv emptyDb "s").calls = []
      ∧ (RAGServer.ScrapeHandler upsertFailsEnv emptyDb "s").db.urls = emptyDb.urls)
    ∧ (ReachesLoop batchFailsEnv emptyDb "s"
        [{ URL := "s/a", Plan := planA }, { URL := "s/b", Plan := planB }] "schema"
      ∧ (RAGServer.ScrapeHandler batchFailsEnv emptyDb "s").response
          = .error StatusInternalServerError "Failed to insert urls into database: duplicate key"
      ∧ (RAGServer.ScrapeHandler batchFailsEnv emptyDb "s").db.store
          = emptyDb.store ++ buildDocuments batchFailsEnv "schema"
              [{ URL := "s/a", Plan := planA }, { URL := "s/b", Plan := planB }]
      ∧ (RAGServer.ScrapeHandler batchFailsEnv emptyDb "s").db.urls = emptyDb.urls)
    ∧ (RAGServer.ScrapeHandler batchFailsEnv emptyDb "s").db = { store := sampleDocuments, urls := [] } :=
  ⟨⟨⟨by decide, rfl, rfl, fun _ _ => rfl, rfl, rfl⟩,
      (ScrapeHandler_ledger_after_upsert upsertFailsEnv emptyDb "s").2.1 _ "schema"
        "embedding failed" ⟨by decide, rfl, rfl, fun _ _ => rfl, rfl, rfl⟩ rfl⟩,
    ⟨⟨by decide, rfl, rfl, fun _ _ => rfl, rfl, rfl⟩,
      (ScrapeHandler_ledger_after_upsert batchFailsEnv emptyDb "s").2.2 _ "schema"
        ["A\nfirst", "\nsecond"] "duplicate key"
        ⟨by decide, rfl, rfl, fun _ _ => rfl, rfl, rfl⟩ rfl rfl rfl⟩,
    by decide⟩

/-! ## Theorems: `RAGService.QueryHandler` -/

/-- The last index of a non-empty slice is in range. -/
theorem index?_last_of_ne_nil {α : Type} (t : List α) (h : t ≠ []) :
    ∃ r, index? t ((t.length : Int) - 1) = some r := by
  have hpos : 0 < t.length := List.length_pos.mpr h
  have hlt : ((t.length : Int) - 1).toNat < t.length := by omega
  refine ⟨t[((t.length : Int) - 1).toNat], ?_⟩
  unfold index?
  rw [if_pos (by omega)]
  exact List.getElem?_eq_getElem hlt

/-- On an empty slice the index `len - 1` is `-1`, out of range. -/
theorem index?_last_nil {α : Type} :
    index? ([] : List α) (((([] : List α).length : Nat) : Int) - 1) = none := by
  simp [index?]

theorem length_UpdateSum (t : Table) : t.UpdateSum.length = t.length := by
  simp [Table.UpdateSum]

theorem UpdateSum_row_sum (t : Table) : ∀ r ∈ t.UpdateSum, r.Sum = r.cellSum := by
  intro r hr
  unfold Table.UpdateSum at hr
  obtain ⟨r0, -, rfl⟩ := List.mem_map.mp hr
  rfl

theorem UpdateSum_cells (t : Table) : t.UpdateSum.map Row.Cells = t.map Row.Cells := by
  simp [Table.UpdateSum]

theorem UpdateSum_aggregate (t : Table) :
    t.UpdateSum.aggregate = (t.map Row.cellSum).sum := by
  unfold Table.aggregate Table.UpdateSum
  rw [List.map_map]
  rfl

/-- The recomputed table depends on the cells only. -/
theorem UpdateSum_congr (t t' : Table) (h : t'.map Row.Cells = t.map Row.Cells) :
    t'.UpdateSum = t.UpdateSum := by
  induction t generalizing t' with
  | nil =>
    have : t' = [] := by simpa using h
    subst this
    rfl
  | cons r rest ih =>
    cases t' with
    | nil => simp at h
    | cons r' rest' =>
      simp only [List.map_cons, List.cons.injEq] at h
      obtain ⟨hc, hrest⟩ := h
      have := ih rest' hrest
      unfold Table.UpdateSum at this ⊢
      simp only [List.map_cons, List.cons.injEq]
      refine ⟨?_, this⟩
      simp [Row.cellSum, hc]

/-- The message `RAGDB.Query` returns for a rejected mode starts with the text
`RAGService.QueryHandler` looks for. -/
theorem unsupported_method_hasPrefix (method : String) :
    strings.HasPrefix ("unsupported method: " ++ method) "unsupported method:" = true := by
  unfold strings.HasPrefix
  have h : ("unsupported method: " ++ method).data
      = "unsupported method:".data ++ (' ' :: method.data) := by
    rw [String.data_append]
    rfl
  rw [h, List.isPrefixOf_iff_prefix]
  exact List.prefix_append _ _

/-- The handler on a successful `Query` result whose table is not empty after
`UpdateSum`. -/
theorem QueryHandler_of_ok_ne_nil (Query : String → Filter → String → Except String Answer)
    (UpdateSum : Table → Table) (qr : QueryRequest) (answer : Answer)
    (hq : Query qr.Content qr.Filter qr.Method = .ok answer)
    (hne : UpdateSum answer.Table ≠ []) :
    RAGService.QueryHandler Query UpdateSum (.ok qr) =
      { outcome := .wrote (.json StatusOK { answer with Table := UpdateSum answer.Table })
        calls := [.Query qr.Content qr.Filter qr.Method, .UpdateSum answer.Table] } := by
  obtain ⟨r, hr⟩ := index?_last_of_ne_nil (UpdateSum answer.Table) hne
  unfold RAGService.QueryHandler
  simp only [hq, hr]

/-- The handler on a successful `Query` result whose table is empty after
`UpdateSum`. -/
theorem QueryHandler_of_ok_nil (Query : String → Filter → String → Except String Answer)
    (UpdateSum : Table → Table) (qr : QueryRequest) (answer : Answer)
    (hq : Query qr.Content qr.Filter qr.Method = .ok answer)
    (hnil : UpdateSum answer.Table = []) :
    RAGService.QueryHandler Query UpdateSum (.ok qr) =
      { outcome := .panic (-1) 0
        calls := [.Query qr.Content qr.Filter qr.Method, .UpdateSum answer.Table] } := by
  unfold RAGService.QueryHandler
  simp [hq, hnil, index?]

/-- C3.  For every successful `Query` result, whatever the handler writes is
the 200 response with the result's table after `UpdateSum`, and with a
non-empty table it does write it.  In that table every row's `Sum` is the sum
of the row's cells, the aggregate is the sum over the rows of those cell sums,
the cells are the model's, and the `Sum` values the model produced play no
part: any table with the same cells gives the same response table. -/
theorem QueryHandler_recomputes_sums (Query : String → Filter → String → Except String Answer)
    (qr : QueryRequest) (answer : Answer)
    (hq : Query qr.Content qr.Filter qr.Method = .ok answer) :
    (∀ r, (RAGService.QueryHandler Query Table.UpdateSum (.ok qr)).outcome = .wrote r →
        r = .json StatusOK { answer with Table := answer.Table.UpdateSum })
      ∧ (answer.Table ≠ [] →
          (RAGService.QueryHandler Query Table.UpdateSum (.ok qr)).outcome
            = .wrote (.json StatusOK { answer with Table := answer.Table.UpdateSum }))
      ∧ QueryCall.UpdateSum answer.Table ∈ (RAGService.QueryHandler Query Table.UpdateSum (.ok qr)).calls
      ∧ (∀ row ∈ answer.Table.UpdateSum, row.Sum = row.cellSum)
      ∧ answer.Table.UpdateSum.aggregate = (answer.Table.UpdateSum.map Row.Sum).sum
      ∧ answer.Table.UpdateSum.aggregate = (answer.Table.map Row.cellSum).sum
      ∧ answer.Table.UpdateSum.map Row.Cells = answer.Table.map Row.Cells
      ∧ (∀ t : Table, t.map Row.Cells = answer.Table.map Row.Cells →
          t.UpdateSum = answer.Table.UpdateSum) := by
  have hlive : answer.Table ≠ [] →
      RAGService.QueryHandler Query Table.UpdateSum (.ok qr) =
        { outcome := .wrote (.json StatusOK { answer with Table := answer.Table.UpdateSum })
          calls := [.Query qr.Content qr.Filter qr.Method, .UpdateSum answer.Table] } := by
    intro hne
    apply QueryHandler_of_ok_ne_nil Query Table.UpdateSum qr answer hq
    intro hnil
    apply hne
    have := length_UpdateSum answer.Table
    rw [hnil] at this
    exact List.length_eq_zero.mp this.symm
  refine ⟨?_, ?_, ?_, UpdateSum_row_sum _, rfl, UpdateSum_aggregate _, UpdateSum_cells _,
    fun t ht => UpdateSum_congr _ t ht⟩
  · intro r hr
    by_cases hne : answer.Table = []
    · rw [QueryHandler_of_ok_nil Query Table.UpdateSum qr answer hq (by rw [hne]; rfl)] at hr
      simp at hr
    · rw [hlive hne] at hr
      simp only [Outcome.wrote.injEq] at hr
      exact hr.symm
  · intro hne
    rw [hlive hne]
  · by_cases hne : answer.Table = []
    · rw [QueryHandler_of_ok_nil Query Table.UpdateSum qr answer hq (by rw [hne]; rfl)]
      simp
    · rw [hlive hne]
      simp

/-- C3 at a concrete query: the model returned sums 7 and 0, the response
carries 104 and 52, and the aggregate is 156. -/
theorem QueryHandler_recomputes_sums_witness :
    RAGDB.Query sampleRun chooseRequest.Content chooseRequest.Filter chooseRequest.Method
        = .ok { Payload := "choose", Table := modelTable }
      ∧ (RAGService.QueryHandler (RAGDB.Query sampleRun) Table.UpdateSum (.ok chooseRequest)).outcome
          = .wrote (.json StatusOK
              { Payload := "choose"
                Table := [{ Cells := [.num 4, .num 100, .text "easy"], Sum := 104 },
                          { Cells := [.num 2, .num 50], Sum := 52 }] })
      ∧ modelTable.UpdateSum.aggregate = 156
      ∧ (∀ row ∈ modelTable.UpdateSum, row.Sum = row.cellSum) :=
  ⟨rfl, by decide, by decide,
    (QueryHandler_recomputes_sums (RAGDB.Query sampleRun) chooseRequest
      { Payload := "choose", Table := modelTable } rfl).2.2.2.1⟩

/-- C4.  A request whose method is neither "choose" nor "generate" is answered
with status 400 after the single call to `Query`: no answer is written and
`UpdateSum` is not called.  For every error `Query` returns, the handler writes
400 exactly when the message starts with "unsupported method:", writes 500 with
the message itself otherwise, and in neither case calls `UpdateSum`. -/
theorem QueryHandler_unsupported_method (UpdateSum : Table → Table) (qr : QueryRequest) :
    (∀ run, qr.Method ≠ "choose" → qr.Method ≠ "generate" →
        RAGService.QueryHandler (RAGDB.Query run) UpdateSum (.ok qr) =
          { outcome := .wrote (.error StatusBadRequest
              "Method may only be 'choose' or 'generate', invalid choice.")
            calls := [.Query qr.Content qr.Filter qr.Method] })
      ∧ (∀ Query e, Query qr.Content qr.Filter qr.Method = .error e →
          ((RAGService.QueryHandler Query UpdateSum (.ok qr)).outcome.status? = some StatusBadRequest
              ↔ strings.HasPrefix e "unsupported method:" = true)
            ∧ (strings.HasPrefix e "unsupported method:" = true →
                (RAGService.QueryHandler Query UpdateSum (.ok qr)).outcome
                  = .wrote (.error StatusBadRequest
                      "Method may only be 'choose' or 'generate', invalid choice."))
            ∧ (strings.HasPrefix e "unsupported method:" = false →
                (RAGService.QueryHandler Query UpdateSum (.ok qr)).outcome
                  = .wrote (.error StatusInternalServerError e))
            ∧ (RAGService.QueryHandler Query UpdateSum (.ok qr)).calls
                = [.Query qr.Content qr.Filter qr.Method]) := by
  refine ⟨?_, ?_⟩
  · intro run hc hg
    have herr : RAGDB.Query run qr.Content qr.Filter qr.Method
        = .error ("unsupported method: " ++ qr.Method) := by
      simp [RAGDB.Query, hc, hg]
    unfold RAGService.QueryHandler
    simp only [herr, unsupported_method_hasPrefix, if_true]
  · intro Query e he
    unfold RAGService.QueryHandler
    simp only [he]
    cases hp : strings.HasPrefix e "unsupported method:" <;>
      simp [Outcome.status?, Response.status, StatusBadRequest, StatusInternalServerError]

/-- C4 at concrete requests: the method "delete", and an upstream failure. -/
theorem QueryHandler_unsupported_method_witness :
    (deleteRequest.Method ≠ "choose" ∧ deleteRequest.Method ≠ "generate"
      ∧ RAGService.QueryHandler (RAGDB.Query sampleRun) Table.UpdateSum (.ok deleteRequest) =
          { outcome := .wrote (.error StatusBadRequest
              "Method may only be 'choose' or 'generate', invalid choice.")
            calls := [.Query "beginner plan" [] "delete"] })
    ∧ (RAGDB.Query sampleRun emptyContentRequest.Content emptyContentRequest.Filter
          emptyContentRequest.Method = .error "model unavailable"
      ∧ strings.HasPrefix "model unavailable" "unsupported method:" = false
      ∧ (RAGService.QueryHandler (RAGDB.Query sampleRun) Table.UpdateSum (.ok emptyContentRequest)).outcome
          = .wrote (.error StatusInternalServerError "model unavailable")) :=
  ⟨⟨by decide, by decide,
      (QueryHandler_unsupported_method Table.UpdateSum deleteRequest).1 sampleRun
        (by decide) (by decide)⟩,
    ⟨rfl, by decide,
      ((QueryHandler_unsupported_method Table.UpdateSum emptyContentRequest).2
        (RAGDB.Query sampleRun) "model unavailable" rfl).2.2.1 (by decide)⟩⟩

/-- C10.  For every successful `Query` result and every `UpdateSum` that keeps
the number of rows, the read of the row at index `len(answer.Table)-1` is in
bounds exactly when the table is not empty; with a non-empty table the handler
writes the 200 response, and with an empty table the index is -1, the read
panics and no response is written. -/
theorem QueryHandler_last_row_index (Query : String → Filter → String → Except String Answer)
    (UpdateSum : Table → Table) (hlen : ∀ t, (UpdateSum t).length = t.length)
    (qr : QueryRequest) (answer : Answer)
    (hq : Query qr.Content qr.Filter qr.Method = .ok answer) :
    ((index? (UpdateSum answer.Table) (((UpdateSum answer.Table).length : Int) - 1)).isSome = true
        ↔ answer.Table ≠ [])
      ∧ (answer.Table ≠ [] →
          (RAGService.QueryHandler Query UpdateSum (.ok qr)).outcome
            = .wrote (.json StatusOK { answer with Table := UpdateSum answer.Table }))
      ∧ (answer.Table = [] →
          (((UpdateSum answer.Table).length : Int) - 1 = -1)
            ∧ (RAGService.QueryHandler Query UpdateSum (.ok qr)).outcome = .panic (-1) 0
            ∧ ∀ r, (RAGService.QueryHandler Query UpdateSum (.ok qr)).outcome ≠ .wrote r) := by
  have hiff : UpdateSum answer.Table = [] ↔ answer.Table = [] := by
    rw [← List.length_eq_zero, hlen, List.length_eq_zero]
  refine ⟨?_, ?_, ?_⟩
  · constructor
    · intro hsome hnil
      have hu := hiff.mpr hnil
      rw [hu] at hsome
      simp [index?] at hsome
    · intro hne
      obtain ⟨r, hr⟩ := index?_last_of_ne_nil (UpdateSum answer.Table) (fun h => hne (hiff.mp h))
      rw [hr]
      rfl
  · intro hne
    rw [QueryHandler_of_ok_ne_nil Query UpdateSum qr answer hq (fun h => hne (hiff.mp h))]
  · intro hnil
    have hu := hiff.mpr hnil
    rw [QueryHandler_of_ok_nil Query UpdateSum qr answer hq hu]
    refine ⟨by rw [hu]; rfl, rfl, ?_⟩
    intro r hr
    simp at hr

/-- C10 at a concrete query whose result has an empty table. -/
theorem QueryHandler_last_row_index_witness :
    (∀ t : Table, t.UpdateSum.length = t.length)
      ∧ RAGDB.Query sampleRun nothingRequest.Content nothingRequest.Filter nothingRequest.Method
          = .ok { Payload := "choose", Table := [] }
      ∧ (RAGService.QueryHandler (RAGDB.Query sampleRun) Table.UpdateSum (.ok nothingRequest)).outcome
          = .panic (-1) 0 :=
  ⟨length_UpdateSum, rfl,
    ((QueryHandler_last_row_index (RAGDB.Query sampleRun) Table.UpdateSum length_UpdateSum
      nothingRequest { Payload := "choose", Table := [] } rfl).2.2 rfl).2.1⟩

/-! ## Theorems: `RAGServer.Query` -/

/-- C9.  The handler runs the similarity search with the request's content and
filter and k = 10.  When the search fails that is its only call: the model is
not called and the response is 500 with the search error.  When the search
returns documents, the trace is the search followed by exactly one model call,
whose prompt is the template filled with the request's content and the
documents' texts joined by newline in the order the search returned them, and
the response is what the model returns on that prompt: 200 with its answer, or
500 with its error. -/
theorem Query_single_model_call {V : Type} (env : RagEnv V) (qr : queryRequest) :
    (RAGServer.Query env (.ok qr)).calls.head? = some (.SimilaritySearch qr.Content 10 qr.Filter)
      ∧ (∀ e, env.SimilaritySearch qr.Content 10 qr.Filter = .error e →
          (RAGServer.Query env (.ok qr)).calls = [.SimilaritySearch qr.Content 10 qr.Filter]
            ∧ (RAGServer.Query env (.ok qr)).response
                = .error StatusInternalServerError ("similarity search: " ++ e))
      ∧ (∀ docs, env.SimilaritySearch qr.Content 10 qr.Filter = .ok docs →
          (RAGServer.Query env (.ok qr)).calls
              = [.SimilaritySearch qr.Content 10 qr.Filter,
                 .GenerateFromSinglePrompt
                   (env.ragTemplate qr.Content
                     (String.intercalate "\n" (docs.map Document.PageContent)))]
            ∧ (RAGServer.Query env (.ok qr)).response
                = (match env.GenerateFromSinglePrompt
                      (env.ragTemplate qr.Content
                        (String.intercalate "\n" (docs.map Document.PageContent))) with
                   | .ok answer => .json StatusOK answer
                   | .error e => .error StatusInternalServerError e)
            ∧ (∀ answer, env.GenerateFromSinglePrompt
                  (env.ragTemplate qr.Content
                    (String.intercalate "\n" (docs.map Document.PageContent))) = .ok answer →
                (RAGServer.Query env (.ok qr)).response = .json StatusOK answer)
            ∧ (∀ e, env.GenerateFromSinglePrompt
                  (env.ragTemplate qr.Content
                    (String.intercalate "\n" (docs.map Document.PageContent))) = .error e →
                (RAGServer.Query env (.ok qr)).response
                  = .error StatusInternalServerError e)) := by
  refine ⟨?_, ?_, ?_⟩
  · unfold RAGServer.Query
    simp only
    split
    · rfl
    · split <;> rfl
  · intro e he
    unfold RAGServer.Query
    simp only [he, and_self]
  · intro docs hd
    have hresp : (RAGServer.Query env (.ok qr)).response
        = (match env.GenerateFromSinglePrompt
              (env.ragTemplate qr.Content
                (String.intercalate "\n" (docs.map Document.PageContent))) with
           | .ok answer => .json StatusOK answer
           | .error e => .error StatusInternalServerError e) := by
      rcases hg : env.GenerateFromSinglePrompt
          (env.ragTemplate qr.Content
            (String.intercalate "\n" (docs.map Document.PageContent))) with e | answer <;>
        simp only [RAGServer.Query, hd, ragQuery, docsContents_eq_map, hg]
    refine ⟨?_, hresp, ?_, ?_⟩
    · unfold RAGServer.Query
      simp only [hd, ragQuery, docsContents_eq_map]
      split <;> rfl
    · intro answer ha
      rw [hresp, ha]
    · intro e he
      rw [hresp, he]

/-- C9 at concrete requests: a query that finds three documents and is answered
by the model, the same query against a model that fails, and a query on which
the search fails. -/
theorem Query_single_model_call_witness :
    (sampleRagEnv.SimilaritySearch "beginner plan" 10 [("level", "easy")]
        = .ok [{ PageContent := "plan one", Metadata := [] },
               { PageContent := "plan two", Metadata := [("level", "easy")] },
               { PageContent := "plan three", Metadata := [] }]
      ∧ (RAGServer.Query sampleRagEnv
            (.ok { Content := "beginner plan", Filter := [("level", "easy")] })).calls
          = [.SimilaritySearch "beginner plan" 10 [("level", "easy")],
             .GenerateFromSinglePrompt
               "Q: beginner plan Context: plan one\nplan two\nplan three"]
      ∧ (RAGServer.Query sampleRagEnv
            (.ok { Content := "beginner plan", Filter := [("level", "easy")] })).response
          = .json StatusOK "answer to Q: beginner plan Context: plan one\nplan two\nplan three")
    ∧ (modelFailsRagEnv.GenerateFromSinglePrompt
          "Q: beginner plan Context: plan one\nplan two\nplan three" = .error "quota exceeded"
      ∧ (RAGServer.Query modelFailsRagEnv
            (.ok { Content := "beginner plan", Filter := [("level", "easy")] })).response
          = .error StatusInternalServerError "quota exceeded")
    ∧ (sampleRagEnv.SimilaritySearch "" 10 [] = .error "no embedding"
      ∧ (RAGServer.Query sampleRagEnv (.ok { Content := "", Filter := [] })).calls
          = [.SimilaritySearch "" 10 []]) :=
  ⟨⟨rfl, by
      have h := ((Query_single_model_call sampleRagEnv
        { Content := "beginner plan", Filter := [("level", "easy")] }).2.2 _ rfl).1
      rw [h]
      decide, by
      have h := ((Query_single_model_call sampleRagEnv
        { Content := "beginner plan", Filter := [("level", "easy")] }).2.2 _ rfl).2.2.1
          "answer to Q: beginner plan Context: plan one\nplan two\nplan three" rfl
      exact h⟩,
    ⟨rfl, ((Query_single_model_call modelFailsRagEnv
        { Content := "beginner plan", Filter := [("level", "easy")] }).2.2
          [{ PageContent := "plan one", Metadata := [] },
           { PageContent := "plan two", Metadata := [("level", "easy")] },
           { PageContent := "plan three", Metadata := [] }] rfl).2.2.2 "quota exceeded" rfl⟩,
    ⟨rfl, ((Query_single_model_call sampleRagEnv { Content := "", Filter := [] }).2.1
      "no embedding" rfl).1⟩⟩

end SwimRag
